import Mathlib

/-!
Shallow embedding of `src/dispatcher.c` (a shell command dispatcher).

The source file holds three revisions of the same dispatcher glued
together:
* revision A (lines 32-156): an inline pipeline loop;
* revision B (lines 228-430): the pipeline loop split into `setup_io`,
  `execute_child_process` and `handle_parent_process`;
* revision C (lines 463-561): a single-command dispatcher using
  `waitpid`.

Process-level behaviour (which `fork`, `open`, `pipe` and `execvp` calls
succeed, how spawned programs terminate, and in which order `wait`
reaps them) is modelled by an environment `Env`.  File descriptors are
modelled as integers allocated from a counter starting at 3 (0, 1, 2
are the standard streams); every descriptor created during one
invocation gets a fresh number, so descriptor events can be counted
exactly.  All syscall-level actions are recorded in an event trace.
-/

namespace ShellSpec

/-- Output disposition of one stage: the four COMMAND_OUTPUT values of
parser.h used by dispatcher.c. -/
inductive OutputType
  | stdout
  | pipe
  | fileTruncate
  | fileAppend
deriving DecidableEq, Repr

/-- One stage of a pipeline: struct command, without the pipe_to
pointer.  A whole pipeline (the pipe_to chain) is a `List Command`, the
head being the stage the dispatcher receives. -/
structure Command where
  argv : List String
  input_filename : Option String
  output_type : OutputType
  output_filename : Option String
deriving DecidableEq, Repr

/-- argv[0] of a stage.  The parser guarantees argv is non-empty; on the
empty list we read the empty string. -/
def argv0 (c : Command) : String :=
  c.argv.headD ""

/-- Termination outcome of one reaped process, abstracting the wait
status word: WIFEXITED true with WEXITSTATUS `code`, or killed by
signal `sig`. -/
inductive Outcome
  | exited (code : Nat)
  | signaled (sig : Nat)
deriving DecidableEq, Repr

/-- The value `WIFEXITED(status) ? WEXITSTATUS(status) : -1` computed at
dispatcher.c lines 155, 379 and 553-557.  WEXITSTATUS exposes eight
bits, hence the mod 256. -/
def wait_rv : Outcome → Int
  | Outcome.exited c => Int.ofNat (c % 256)
  | Outcome.signaled _ => -1

/-- The open(2) flag sets used by the dispatcher. -/
inductive OFlag
  | owronly
  | ocreat
  | otrunc
  | oappend
deriving DecidableEq, Repr

/-- O_WRONLY | O_CREAT | O_TRUNC. -/
def trunc_flags : List OFlag := [OFlag.owronly, OFlag.ocreat, OFlag.otrunc]

/-- O_WRONLY | O_CREAT | O_APPEND. -/
def append_flags : List OFlag := [OFlag.owronly, OFlag.ocreat, OFlag.oappend]

/-- Environment: resolves every OS-level nondeterminism of one
dispatcher invocation.  Stages are numbered 0, 1, ... in pipeline
order; `reapOrder` is the order in which children terminate and are
returned by wait(2). -/
structure Env where
  pipeOk : Nat → Bool
  openRead : String → Bool
  openWriteTrunc : String → Bool
  openWriteAppend : String → Bool
  forkOk : Nat → Bool
  execOk : Nat → Bool
  execErrno : Nat → Nat
  outcomes : Nat → Outcome
  reapOrder : List Nat

/-- Values of the uninitialised locals of dispatch_external_command:
`curr_pipe` before any pipe(2) call, and `status` when wait(2) never
succeeded.  Reading them in C is indeterminate, so they are explicit
parameters here. -/
structure Garbage where
  curr0 : Int
  curr1 : Int
  status : Outcome

/-- Trace events: syscalls and error reports, with child-side events
tagged by their stage number. -/
inductive Event
  | pipeCreated (stage : Nat) (r w : Int)
  | openAttemptR (stage : Nat) (path : String)
  | openedRead (stage : Nat) (path : String) (fd : Int)
  | openAttemptW (stage : Nat) (path : Option String) (flags : List OFlag)
  | openedWrite (stage : Nat) (path : Option String) (fd : Int)
  | report (msg : String)
  | forked (stage : Nat)
  | childDup2 (stage : Nat) (ofd nfd : Int)
  | childClose (stage : Nat) (fd : Int)
  | childExec (stage : Nat) (prog : String)
  | childReport (stage : Nat) (msg : String) (withStrerror : Bool)
  | childExit (stage : Nat) (code : Nat)
  | parentClose (fd : Int)
deriving DecidableEq, Repr

/-- What an execvp attempt in a child ends as: the image is replaced, or
the child exits with a code. -/
inductive ChildRes
  | execed (prog : String) (argv : List String)
  | exited (code : Nat)
deriving DecidableEq, Repr

/-- Coordinator-local state of the revision-B pipeline loop
(dispatcher.c lines 344-354): the locals of dispatch_external_command
plus bookkeeping (descriptor allocator, descriptors open in the parent,
descriptors that are pipe ends, trace, spawned stages). -/
structure St where
  nextFd : Int
  input_fd : Int
  output_fd : Int
  prev0 : Int
  prev1 : Int
  curr0 : Int
  curr1 : Int
  parentOpen : List Int
  pipeFds : List Int
  events : List Event
  spawned : List Nat
deriving Repr

/-- Initial loop state (dispatcher.c lines 348-352): stdin and stdout,
prev_pipe = {-1,-1}, curr_pipe uninitialised. -/
def st_init (g : Garbage) : St :=
  { nextFd := 3, input_fd := 0, output_fd := 1, prev0 := -1, prev1 := -1,
    curr0 := g.curr0, curr1 := g.curr1,
    parentOpen := [], pipeFds := [], events := [], spawned := [] }

/-- Record a perror/fprintf(stderr) report in the parent. -/
def addReport (s : St) (m : String) : St :=
  { s with events := s.events ++ [Event.report m] }

/-- close(2) of `fd` in the parent: the descriptor leaves the parent's
open set (if present) and the close is recorded. -/
def closeFd (s : St) (fd : Int) : St :=
  { s with parentOpen := s.parentOpen.erase fd,
           events := s.events ++ [Event.parentClose fd] }

/-- Shared open-for-writing oracle: open(path, O_WRONLY|O_CREAT|...)
succeeds or not.  A missing filename (NULL pointer) always fails. -/
def openW (env : Env) (app : Bool) : Option String → Bool
  | none => false
  | some p => if app then env.openWriteAppend p else env.openWriteTrunc p

/-- The output-file open of setup_io (dispatcher.c lines 235-239): the
open is attempted with the given flags on the stage output filename; on
success a fresh descriptor becomes output_fd, on failure output_fd
becomes -1. -/
def open_output (env : Env) (k : Nat) (cmd : Command) (app : Bool) (s : St) : St :=
  let fl := if app then append_flags else trunc_flags
  let s1 := { s with events := s.events ++ [Event.openAttemptW k cmd.output_filename fl] }
  if openW env app cmd.output_filename then
    { s1 with nextFd := s1.nextFd + 1, output_fd := s1.nextFd,
              parentOpen := s1.parentOpen ++ [s1.nextFd],
              events := s1.events ++ [Event.openedWrite k cmd.output_filename s1.nextFd] }
  else
    { s1 with output_fd := -1 }

/-- Final output check of setup_io (dispatcher.c lines 250-253). -/
def setup_io_check_output (cmd : Command) (s : St) : St × Bool :=
  if s.output_fd = -1 ∧
      (cmd.output_type = OutputType.fileTruncate ∨ cmd.output_type = OutputType.fileAppend) then
    (addReport s "Failed to open output file", false)
  else
    (s, true)

/-- Input-redirection part of setup_io (dispatcher.c lines 242-248),
followed by the final output check. -/
def setup_io_input (env : Env) (k : Nat) (cmd : Command) (s : St) : St × Bool :=
  match cmd.input_filename with
  | some f =>
    let s1 := { s with events := s.events ++ [Event.openAttemptR k f] }
    if env.openRead f then
      setup_io_check_output cmd
        { s1 with nextFd := s1.nextFd + 1, input_fd := s1.nextFd,
                  parentOpen := s1.parentOpen ++ [s1.nextFd],
                  events := s1.events ++ [Event.openedRead k f s1.nextFd] }
    else
      (addReport { s1 with input_fd := -1 } "Failed to open input file for reading", false)
  | none => setup_io_check_output cmd s

/-- setup_io (dispatcher.c lines 228-257): create the pipe or open the
output file according to the output disposition, then open the input
file if one is named, then check the output descriptor.  Returns the
updated state and true for 0, false for -1. -/
def setup_io (env : Env) (k : Nat) (cmd : Command) (s : St) : St × Bool :=
  if cmd.output_type = OutputType.pipe then
    if env.pipeOk k then
      let r := s.nextFd
      let w := s.nextFd + 1
      setup_io_input env k cmd
        { s with nextFd := s.nextFd + 2, output_fd := w, curr0 := r, curr1 := w,
                 parentOpen := s.parentOpen ++ [r, w],
                 pipeFds := s.pipeFds ++ [r, w],
                 events := s.events ++ [Event.pipeCreated k r w] }
    else
      (addReport s "pipe failed", false)
  else if cmd.output_type = OutputType.fileTruncate then
    setup_io_input env k cmd (open_output env k cmd false s)
  else if cmd.output_type = OutputType.fileAppend then
    setup_io_input env k cmd (open_output env k cmd true s)
  else
    setup_io_input env k cmd s

/-- execute_child_process (dispatcher.c lines 259-279), run in the
child for stage `k` with the descriptor values at fork time: dup2 and
close for redirected stdin and stdout, close of curr_pipe[1] when the
stage writes to a pipe, then execvp; on execvp failure
perror("execvp failed") and exit(-1) (exit byte 255). -/
def execute_child_process (env : Env) (k : Nat) (cmd : Command)
    (input_fd output_fd c0 c1 : Int) : List Event × ChildRes :=
  let ev1 := if input_fd ≠ 0 then [Event.childDup2 k input_fd 0, Event.childClose k input_fd] else []
  let ev2 := if output_fd ≠ 1 then [Event.childDup2 k output_fd 1, Event.childClose k output_fd] else []
  let ev3 := if cmd.output_type = OutputType.pipe then [Event.childClose k c1] else []
  let ev4 := [Event.childExec k (argv0 cmd)]
  if env.execOk k then
    (ev1 ++ ev2 ++ ev3 ++ ev4, ChildRes.execed (argv0 cmd) cmd.argv)
  else
    (ev1 ++ ev2 ++ ev3 ++ ev4 ++
       [Event.childReport k "execvp failed" true, Event.childExit k 255],
     ChildRes.exited 255)

/-- handle_parent_process (dispatcher.c lines 281-298): close the write
end of the current pipe, close the read end of the previous pipe, set
the next input descriptor, shift curr_pipe into prev_pipe. -/
def handle_parent_process (cmd : Command) (s : St) : St :=
  let s1 := if cmd.output_type = OutputType.pipe then closeFd s s.curr1 else s
  let s2 := if s1.prev0 ≠ -1 then closeFd s1 s1.prev0 else s1
  { s2 with input_fd := if cmd.output_type = OutputType.pipe then s2.curr0 else 0,
            prev0 := s2.curr0, prev1 := s2.curr1 }

/-- The while loop of revision B dispatch_external_command
(dispatcher.c lines 356-374), walking the pipe_to chain.  `k` numbers
the current stage.  Returns the final state and true when the loop ran
off the end of the chain, false when a setup_io or fork failure made
the function return -1. -/
def run_stages (env : Env) : Nat → List Command → St → St × Bool
  | _, [], s => (s, true)
  | k, cmd :: rest, s =>
    let p := setup_io env k cmd s
    if p.2 then
      if env.forkOk k then
        let ce := (execute_child_process env k cmd p.1.input_fd p.1.output_fd p.1.curr0 p.1.curr1).1
        let s2 : St :=
          { p.1 with
            events := p.1.events ++ [Event.forked k] ++ ce,
            spawned := p.1.spawned ++ [k] }
        run_stages env (k + 1) rest (handle_parent_process cmd s2)
      else
        (addReport p.1 "fork failed", false)
    else
      (p.1, false)

/-- Outcome a spawned child ends with: its program outcome when execvp
succeeded, otherwise the exit(-1) of the failure path (byte 255). -/
def actual_outcome (env : Env) (k : Nat) : Outcome :=
  if env.execOk k then env.outcomes k else Outcome.exited 255

/-- The reap loop `while (wait(&status) > 0);` (dispatcher.c lines
152-153 and 376-377): children are returned in termination order,
restricted to the stages actually spawned; `status` ends as the status
of the child reaped last. -/
def reap_all (env : Env) (spawned : List Nat) : List (Nat × Outcome) :=
  (env.reapOrder.filter (fun i => spawned.contains i)).map
    (fun i => (i, actual_outcome env i))

/-- What one revision-B dispatch_external_command invocation produced:
its return value, the full trace, the spawned stages, the descriptors
still open in the parent, the pipe-end descriptors created, and the
reap sequence (empty when the function returned -1 before the wait
loop). -/
structure DispatchResult where
  status : Int
  events : List Event
  spawned : List Nat
  parentOpen : List Int
  pipeFds : List Int
  reaped : List (Nat × Outcome)
deriving DecidableEq, Repr

/-- Revision B dispatch_external_command (dispatcher.c lines 317-380):
run the stage loop; on failure return -1 without waiting, on success
reap every child and decode the status kept by the last successful
wait (the garbage status when no child was ever spawned). -/
def dispatch_external_command (env : Env) (pipeline : List Command) (g : Garbage) :
    DispatchResult :=
  let r := run_stages env 0 pipeline (st_init g)
  if r.2 then
    let reaped := reap_all env r.1.spawned
    let st := match reaped.getLast? with
      | some pr => wait_rv pr.2
      | none => wait_rv g.status
    { status := st, events := r.1.events, spawned := r.1.spawned,
      parentOpen := r.1.parentOpen, pipeFds := r.1.pipeFds, reaped := reaped }
  else
    { status := -1, events := r.1.events, spawned := r.1.spawned,
      parentOpen := r.1.parentOpen, pipeFds := r.1.pipeFds, reaped := [] }

/-- The output-file open request of the revision-A loop (dispatcher.c
lines 79-83): which filename is handed to open(2) and with which
flags, as a function of the pipeline head and the current stage.  The
append branch (line 82) passes pipeline->output_filename, the filename
of the head stage, not of the current stage. -/
def v1_output_open_request (pipeline current_cmd : Command) :
    Option (Option String × List OFlag) :=
  if current_cmd.output_type = OutputType.fileTruncate then
    some (current_cmd.output_filename, trunc_flags)
  else if current_cmd.output_type = OutputType.fileAppend then
    some (pipeline.output_filename, append_flags)
  else
    none

/-- The execvp-failure report of the inline child code (dispatcher.c
lines 114-119 and 540-545): the message printed and whether it carries
strerror(errno) (perror) or is the bare distinct message.  ENOENT is
errno 2. -/
def inline_child_exec_failure_report (errno : Nat) : String × Bool :=
  if errno = 2 then ("error: cannot find command", false)
  else ("Failed to execute the external command", true)

/-- Result of the revision-C single-command dispatcher. -/
structure V3Result where
  status : Int
  events : List Event
  spawnedChild : Bool
  reapedOutcome : Option Outcome
deriving DecidableEq, Repr

/-- fork/waitpid part of revision C (dispatcher.c lines 528-558). -/
def v3_fork (env : Env) (cmd : Command) (evs : List Event) : V3Result :=
  if env.forkOk 0 then
    let childEvs :=
      if env.execOk 0 then [Event.childExec 0 (argv0 cmd)]
      else
        [Event.childExec 0 (argv0 cmd),
         Event.childReport 0 (inline_child_exec_failure_report (env.execErrno 0)).1
           (inline_child_exec_failure_report (env.execErrno 0)).2,
         Event.childExit 0 255]
    let oc := actual_outcome env 0
    { status := wait_rv oc, events := evs ++ [Event.forked 0] ++ childEvs,
      spawnedChild := true, reapedOutcome := some oc }
  else
    { status := -1, events := evs ++ [Event.report "Failed to fork child process"],
      spawnedChild := false, reapedOutcome := none }

/-- Output-redirection switch of revision C (dispatcher.c lines
507-526); `input_fd` is the descriptor closed on an output-open
failure. -/
def v3_output (env : Env) (cmd : Command) (input_fd : Int) (evs : List Event) : V3Result :=
  if cmd.output_type = OutputType.fileTruncate then
    let evs1 := evs ++ [Event.openAttemptW 0 cmd.output_filename trunc_flags]
    if openW env false cmd.output_filename then
      v3_fork env cmd (evs1 ++ [Event.openedWrite 0 cmd.output_filename (input_fd + 1)])
    else
      { status := -1,
        events := evs1 ++ [Event.report "Failed to open output file for truncation",
                           Event.parentClose input_fd],
        spawnedChild := false, reapedOutcome := none }
  else if cmd.output_type = OutputType.fileAppend then
    let evs1 := evs ++ [Event.openAttemptW 0 cmd.output_filename append_flags]
    if openW env true cmd.output_filename then
      v3_fork env cmd (evs1 ++ [Event.openedWrite 0 cmd.output_filename (input_fd + 1)])
    else
      { status := -1,
        events := evs1 ++ [Event.report "Failed to open output file for appending",
                           Event.parentClose input_fd],
        spawnedChild := false, reapedOutcome := none }
  else
    v3_fork env cmd evs

/-- Revision C dispatch_external_command (dispatcher.c lines 463-561):
single command, optional input and output redirection (the descriptors
are opened but never wired in the child), fork, execvp with the
distinct not-found report, waitpid on the one child. -/
def dispatch_external_command_v3 (env : Env) (cmd : Command) : V3Result :=
  match cmd.input_filename with
  | some f =>
    if env.openRead f then
      v3_output env cmd 3 [Event.openAttemptR 0 f, Event.openedRead 0 f 3]
    else
      { status := -1,
        events := [Event.openAttemptR 0 f, Event.report "Failed to open input file"],
        spawnedChild := false, reapedOutcome := none }
  | none => v3_output env cmd 0 []

/-- Type of a builtin handler: argv, the previous status and the
current exit flag in, the returned status and the exit flag value after
the call out (the flag is a bool out-parameter in C). -/
def BuiltinHandler : Type := List String → Int → Bool → Int × Bool

/-- Result of parse_input: a nonzero parse_error code, or a pipeline
chain ([] is the NULL result for a blank line). -/
inductive ParseResult
  | err (e : Nat)
  | ok (p : List Command)

/-- Environment of the line-level dispatcher: the parser, the
sentinel-terminated builtin registry as an ordered list, and the
process environment for external commands. -/
structure ShellEnv where
  parse : String → ParseResult
  builtins : List (String × BuiltinHandler)
  env : Env
  g : Garbage

/-- The builtin lookup loop of dispatch_parsed_command (dispatcher.c
lines 397-404): first entry whose name matches argv[0]. -/
def lookup_builtin : List (String × BuiltinHandler) → String → Option BuiltinHandler
  | [], _ => none
  | (n, h) :: rest, name => if n = name then some h else lookup_builtin rest name

/-- dispatch_parsed_command (dispatcher.c lines 393-408) on a non-empty
chain `c :: rest`: run the builtin handler if argv[0] names one (the
flag may change only here), otherwise hand the whole chain to
dispatch_external_command (the flag is not passed down).  Returns
(status, flag afterwards, whether a builtin ran). -/
def dispatch_parsed_command (se : ShellEnv) (c : Command) (rest : List Command)
    (last_rv : Int) (flag : Bool) : Int × Bool × Bool :=
  match lookup_builtin se.builtins (argv0 c) with
  | some h =>
    let hr := h c.argv last_rv flag
    (hr.1, hr.2, true)
  | none => ((dispatch_external_command se.env (c :: rest) se.g).status, flag, false)

/-- Result of one shell_command_dispatcher call. -/
structure ShellResult where
  status : Int
  shell_should_exit : Bool
  dispatched : Bool
  usedBuiltin : Bool
deriving DecidableEq, Repr

/-- shell_command_dispatcher (dispatcher.c lines 410-430): parse the
line; a parse error yields -1, a blank line yields the previous status
unchanged, otherwise dispatch the parsed chain. -/
def shell_command_dispatcher (se : ShellEnv) (input : String) (last_rv : Int)
    (flag : Bool) : ShellResult :=
  match se.parse input with
  | ParseResult.err _ =>
    { status := -1, shell_should_exit := flag, dispatched := false, usedBuiltin := false }
  | ParseResult.ok [] =>
    { status := last_rv, shell_should_exit := flag, dispatched := false, usedBuiltin := false }
  | ParseResult.ok (c :: rest) =>
    let d := dispatch_parsed_command se c rest last_rv flag
    { status := d.1, shell_should_exit := d.2.1, dispatched := true, usedBuiltin := d.2.2 }

/-!  Concrete fixtures: small pipelines and environments used to
evaluate the dispatcher at specific inputs. -/

/-- Stage `a` with pipe output (the head of a two-stage pipeline). -/
def cmdA : Command :=
  { argv := ["a"], input_filename := none, output_type := OutputType.pipe,
    output_filename := none }

/-- Stage `b` writing to the terminal (the last stage). -/
def cmdB : Command :=
  { argv := ["b"], input_filename := none, output_type := OutputType.stdout,
    output_filename := none }

/-- Stage `a < missing` with pipe output. -/
def cmdAin : Command :=
  { argv := ["a"], input_filename := some "missing", output_type := OutputType.pipe,
    output_filename := none }

/-- Stage `b >> f`: append output to the named file f. -/
def cmdAppend : Command :=
  { argv := ["b"], input_filename := none, output_type := OutputType.fileAppend,
    output_filename := some "f" }

/-- Environment where every syscall succeeds, stage 0 exits 3, stage 1
exits 0, and stage 0 terminates after stage 1 (wait reaps 1 first,
then 0). -/
def env_ok : Env :=
  { pipeOk := fun _ => true, openRead := fun _ => true,
    openWriteTrunc := fun _ => true, openWriteAppend := fun _ => true,
    forkOk := fun _ => true, execOk := fun _ => true, execErrno := fun _ => 0,
    outcomes := fun i => if i = 0 then Outcome.exited 3 else Outcome.exited 0,
    reapOrder := [1, 0] }

/-- Fixed contents for the uninitialised locals. -/
def g0 : Garbage := { curr0 := -1, curr1 := -1, status := Outcome.exited 0 }

/-- env_ok but every input-file open fails. -/
def env_noread : Env := { env_ok with openRead := fun _ => false }

/-- env_ok but fork fails for every stage after stage 0. -/
def env_fork1 : Env := { env_ok with forkOk := fun i => i == 0 }

/-- env_ok but execvp fails with ENOENT (errno 2) in every child. -/
def env_noent : Env := { env_ok with execOk := fun _ => false, execErrno := fun _ => 2 }

/-- Environment with one stage whose process ends with outcome `oc`
and is reaped as the only child. -/
def env_single (oc : Outcome) : Env :=
  { env_ok with outcomes := fun _ => oc, reapOrder := [0] }

/-- C1: the claim says the status returned by dispatch_external_command
is the exit status of the last stage regardless of earlier stages.  The
wait loop (lines 152-153, 376-377) keeps the status of whichever child
is reaped last.  For `a | b` with stage 0 exiting 3 after stage 1 exits
0, the function returns 3, the status of the first stage, while the
last stage exited 0 — contradicting the claim and the function's own
doc comment. -/
theorem c1_status_is_last_reaped_not_last_stage :
    (dispatch_external_command env_ok [cmdA, cmdB] g0).status = 3 ∧
    actual_outcome env_ok 1 = Outcome.exited 0 ∧
    (dispatch_external_command env_ok [cmdA, cmdB] g0).reaped.getLast? =
      some (0, Outcome.exited 3) := by decide

/-- C2: the claim says each pipe end is closed exactly once by each
process that must close it, the child closes the read end of the pipe
it writes into, and no pipe descriptor stays open in the parent after
the invocation.  On `a < missing | b` with the input open failing, the
parent returns with both ends (descriptors 3 and 4) of the freshly
created pipe still open; on `a | b` the stage-0 child closes the write
end (descriptor 4) twice (lines 265-268 and 271-273) and never closes
the read end (descriptor 3) before execvp. -/
theorem c2_pipe_end_discipline_violated :
    (dispatch_external_command env_noread [cmdAin, cmdB] g0).status = -1 ∧
    (dispatch_external_command env_noread [cmdAin, cmdB] g0).parentOpen = [3, 4] ∧
    (dispatch_external_command env_noread [cmdAin, cmdB] g0).pipeFds = [3, 4] ∧
    ((dispatch_external_command env_ok [cmdA, cmdB] g0).events.count
      (Event.childClose 0 4)) = 2 ∧
    Event.childClose 0 3 ∉ (dispatch_external_command env_ok [cmdA, cmdB] g0).events ∧
    (dispatch_external_command env_ok [cmdA, cmdB] g0).pipeFds = [3, 4] := by decide

/-- C3: the claim says that on a fork failure the coordinator aborts,
reports, launches no further stage, and still reaps every process
already spawned.  On `a | b` with the second fork failing, the code
reports and aborts without launching stage 1, but returns -1 straight
away (lines 370-373): the wait loop is never reached and the stage-0
child is never reaped. -/
theorem c3_fork_failure_skips_reaping :
    (dispatch_external_command env_fork1 [cmdA, cmdB] g0).status = -1 ∧
    (dispatch_external_command env_fork1 [cmdA, cmdB] g0).spawned = [0] ∧
    (dispatch_external_command env_fork1 [cmdA, cmdB] g0).reaped = [] ∧
    Event.report "fork failed" ∈
      (dispatch_external_command env_fork1 [cmdA, cmdB] g0).events := by decide

/-- C5: the claim says an append-file stage opens its own declared
output filename.  The revision-A loop (line 82) passes
pipeline->output_filename, the head stage filename, to open: for the
pipeline `a | b >> f` it requests the head stage filename (NULL) with
the append flags, not the filename f of the appending stage, while
revision-B setup_io (line 238) requests the stage own filename f with
O_WRONLY, O_CREAT, O_APPEND. -/
theorem c5_v1_append_opens_head_filename :
    v1_output_open_request cmdA cmdAppend = some (none, append_flags) ∧
    cmdAppend.output_filename = some "f" ∧
    Event.openAttemptW 1 (some "f") append_flags ∈
      (setup_io env_ok 1 cmdAppend (st_init g0)).1.events := by decide

/-- C8 counterexample: the claim says an exec failure with ENOENT is
reported with a distinct command-not-found message.  In
execute_child_process (lines 275-278) an ENOENT failure is reported by
perror with the generic message and strerror, identically to any other
errno, and the distinct message never appears. -/
theorem c8_counterexample_uniform_report :
    Event.childReport 0 "execvp failed" true ∈
      (execute_child_process env_noent 0 cmdB 0 1 (-1) (-1)).1 ∧
    Event.childReport 0 "error: cannot find command" false ∉
      (execute_child_process env_noent 0 cmdB 0 1 (-1) (-1)).1 ∧
    (execute_child_process env_noent 0 cmdB 0 1 (-1) (-1)).1 =
      (execute_child_process { env_noent with execErrno := fun _ => 5 } 0 cmdB
        0 1 (-1) (-1)).1 := by decide

/-!  Helper lemmas for the input-open-failure claim: a stage whose
input file cannot be opened makes setup_io fail, and that failure
aborts the whole pipeline before the stage is forked. -/

/-- open_output never touches the spawned list. -/
theorem open_output_spawned (env : Env) (k : Nat) (cmd : Command) (app : Bool) (s : St) :
    (open_output env k cmd app s).spawned = s.spawned := by
  unfold open_output
  by_cases h : openW env app cmd.output_filename <;> simp [h]

/-- setup_io_input on a stage whose named input file cannot be opened:
the call fails, spawns nothing, and reports the failure. -/
theorem setup_io_input_fail (env : Env) (k : Nat) (cmd : Command) (s : St)
    (f : String) (hf : cmd.input_filename = some f) (ho : env.openRead f = false) :
    (setup_io_input env k cmd s).2 = false ∧
    (setup_io_input env k cmd s).1.spawned = s.spawned ∧
    Event.report "Failed to open input file for reading" ∈
      (setup_io_input env k cmd s).1.events := by
  unfold setup_io_input
  rw [hf]
  simp [ho, addReport]

/-- setup_io on a stage whose named input file cannot be opened: the
call fails, spawns nothing, and some error is reported. -/
theorem setup_io_fail (env : Env) (k : Nat) (cmd : Command) (s : St)
    (f : String) (hf : cmd.input_filename = some f) (ho : env.openRead f = false) :
    (setup_io env k cmd s).2 = false ∧
    (setup_io env k cmd s).1.spawned = s.spawned ∧
    ∃ m, Event.report m ∈ (setup_io env k cmd s).1.events := by
  by_cases h1 : cmd.output_type = OutputType.pipe
  · by_cases h2 : env.pipeOk k = true
    · simp only [setup_io, h1, h2, if_true, reduceIte]
      exact ⟨(setup_io_input_fail env k cmd _ f hf ho).1,
             (setup_io_input_fail env k cmd _ f hf ho).2.1,
             ⟨_, (setup_io_input_fail env k cmd _ f hf ho).2.2⟩⟩
    · simp only [setup_io, h1, h2, reduceIte, Bool.false_eq_true, if_false]
      refine ⟨?_, ?_, "pipe failed", ?_⟩ <;> simp [addReport]
  · by_cases h2 : cmd.output_type = OutputType.fileTruncate
    · simp only [setup_io, h1, h2, reduceIte, if_false, if_true]
      exact ⟨(setup_io_input_fail env k cmd _ f hf ho).1,
             ((setup_io_input_fail env k cmd _ f hf ho).2.1).trans
               (open_output_spawned env k cmd false s),
             ⟨_, (setup_io_input_fail env k cmd _ f hf ho).2.2⟩⟩
    · by_cases h3 : cmd.output_type = OutputType.fileAppend
      · simp only [setup_io, h1, h2, h3, reduceIte, if_false, if_true]
        exact ⟨(setup_io_input_fail env k cmd _ f hf ho).1,
               ((setup_io_input_fail env k cmd _ f hf ho).2.1).trans
                 (open_output_spawned env k cmd true s),
               ⟨_, (setup_io_input_fail env k cmd _ f hf ho).2.2⟩⟩
      · simp only [setup_io, h1, h2, h3, reduceIte, if_false]
        exact ⟨(setup_io_input_fail env k cmd s f hf ho).1,
               (setup_io_input_fail env k cmd s f hf ho).2.1,
               ⟨_, (setup_io_input_fail env k cmd s f hf ho).2.2⟩⟩

/-- setup_io_check_output never touches the spawned list. -/
theorem setup_io_check_output_spawned (cmd : Command) (s : St) :
    (setup_io_check_output cmd s).1.spawned = s.spawned := by
  unfold setup_io_check_output addReport
  split <;> rfl

/-- setup_io_input never touches the spawned list. -/
theorem setup_io_input_spawned (env : Env) (k : Nat) (cmd : Command) (s : St) :
    (setup_io_input env k cmd s).1.spawned = s.spawned := by
  unfold setup_io_input addReport
  cases cmd.input_filename with
  | none => exact setup_io_check_output_spawned cmd s
  | some f =>
    dsimp only
    split
    · exact setup_io_check_output_spawned cmd _
    · rfl

/-- setup_io never touches the spawned list. -/
theorem setup_io_spawned (env : Env) (k : Nat) (cmd : Command) (s : St) :
    (setup_io env k cmd s).1.spawned = s.spawned := by
  unfold setup_io addReport
  split
  · split
    · exact setup_io_input_spawned env k cmd _
    · rfl
  · split
    · exact (setup_io_input_spawned env k cmd _).trans (open_output_spawned env k cmd false s)
    · split
      · exact (setup_io_input_spawned env k cmd _).trans (open_output_spawned env k cmd true s)
      · exact setup_io_input_spawned env k cmd s

/-- handle_parent_process never touches the spawned list. -/
theorem handle_parent_spawned (cmd : Command) (s : St) :
    (handle_parent_process cmd s).spawned = s.spawned := by
  unfold handle_parent_process closeFd
  dsimp only
  split <;> split <;> rfl

/-- When setup_io_check_output fails it has reported an error. -/
theorem setup_io_check_output_false_report (cmd : Command) (s : St)
    (h : (setup_io_check_output cmd s).2 = false) :
    ∃ m, Event.report m ∈ (setup_io_check_output cmd s).1.events := by
  unfold setup_io_check_output at h ⊢
  by_cases hc : s.output_fd = -1 ∧
      (cmd.output_type = OutputType.fileTruncate ∨ cmd.output_type = OutputType.fileAppend)
  · rw [if_pos hc]
    exact ⟨"Failed to open output file", by simp [addReport]⟩
  · rw [if_neg hc] at h
    simp at h

/-- When setup_io_input fails it has reported an error. -/
theorem setup_io_input_false_report (env : Env) (k : Nat) (cmd : Command) (s : St)
    (h : (setup_io_input env k cmd s).2 = false) :
    ∃ m, Event.report m ∈ (setup_io_input env k cmd s).1.events := by
  unfold setup_io_input at h ⊢
  cases hin : cmd.input_filename with
  | none =>
    rw [hin] at h
    exact setup_io_check_output_false_report cmd s h
  | some f =>
    rw [hin] at h
    dsimp only at h ⊢
    by_cases hr : env.openRead f = true
    · rw [if_pos hr] at h ⊢
      exact setup_io_check_output_false_report cmd _ h
    · rw [if_neg hr] at h ⊢
      exact ⟨"Failed to open input file for reading", by simp [addReport]⟩

/-- When setup_io fails it has reported an error. -/
theorem setup_io_false_report (env : Env) (k : Nat) (cmd : Command) (s : St)
    (h : (setup_io env k cmd s).2 = false) :
    ∃ m, Event.report m ∈ (setup_io env k cmd s).1.events := by
  by_cases h1 : cmd.output_type = OutputType.pipe
  · by_cases h2 : env.pipeOk k = true
    · simp only [setup_io, h1, h2, reduceIte] at h ⊢
      exact setup_io_input_false_report env k cmd _ h
    · simp only [setup_io, h1, h2, reduceIte, Bool.false_eq_true, if_false] at h ⊢
      exact ⟨"pipe failed", by simp [addReport]⟩
  · by_cases h2 : cmd.output_type = OutputType.fileTruncate
    · simp only [setup_io, h1, h2, reduceIte] at h ⊢
      exact setup_io_input_false_report env k cmd _ h
    · by_cases h3 : cmd.output_type = OutputType.fileAppend
      · simp only [setup_io, h1, h2, h3, reduceIte] at h ⊢
        exact setup_io_input_false_report env k cmd _ h
      · simp only [setup_io, h1, h2, h3, reduceIte] at h ⊢
        exact setup_io_input_false_report env k cmd s h

/-- If every stage spawned so far has a number below the current stage
counter, then a stage whose named input file cannot be opened makes the
loop abort: the loop result is false, that stage never enters the
spawned list, and some error has been reported. -/
theorem run_stages_input_fail (env : Env) (p : List Command) :
    ∀ (k : Nat) (s : St) (i : Nat) (cmd : Command) (f : String),
    p.get? i = some cmd → cmd.input_filename = some f → env.openRead f = false →
    (∀ j ∈ s.spawned, j < k) →
    (run_stages env k p s).2 = false ∧
    (k + i) ∉ (run_stages env k p s).1.spawned ∧
    ∃ m, Event.report m ∈ (run_stages env k p s).1.events := by
  induction p with
  | nil => intro k s i cmd f hi; simp at hi
  | cons c rest ih =>
    intro k s i cmd f hi hf ho hs
    simp only [run_stages]
    match i, hi with
    | 0, hi =>
      have hc : c = cmd := by simpa using hi
      subst hc
      have hfail := setup_io_fail env k c s f hf ho
      rw [if_neg (by simp [hfail.1])]
      refine ⟨rfl, ?_, hfail.2.2⟩
      rw [Nat.add_zero, hfail.2.1]
      intro hmem
      exact absurd (hs _ hmem) (by simp)
    | Nat.succ i, hi =>
      have hi2 : rest.get? i = some cmd := by simpa using hi
      split
      · split
        · have hs2 : ∀ j ∈ (handle_parent_process c
              { (setup_io env k c s).1 with
                events := (setup_io env k c s).1.events ++ [Event.forked k] ++
                  (execute_child_process env k c (setup_io env k c s).1.input_fd
                    (setup_io env k c s).1.output_fd (setup_io env k c s).1.curr0
                    (setup_io env k c s).1.curr1).1,
                spawned := (setup_io env k c s).1.spawned ++ [k] }).spawned,
              j < k + 1 := by
            intro j hj
            rw [handle_parent_spawned] at hj
            simp only [List.mem_append, List.mem_singleton] at hj
            rcases hj with hj | hj
            · exact Nat.lt_succ_of_lt (hs _ ((setup_io_spawned env k c s) ▸ hj))
            · exact hj ▸ Nat.lt_succ_self k
          have h := ih (k + 1) _ i cmd f hi2 hf ho hs2
          refine ⟨h.1, ?_, h.2.2⟩
          have hks : k + 1 + i = k + (i + 1) := by omega
          rw [hks] at h
          exact h.2.1
        · refine ⟨rfl, ?_, "fork failed", by simp [addReport]⟩
          simp only [addReport]
          intro hmem
          have hlt := hs _ ((setup_io_spawned env k c s) ▸ hmem)
          omega
      · rename_i hsp
        have hrep := setup_io_false_report env k c s (by simpa using hsp)
        refine ⟨rfl, ?_, hrep⟩
        rw [setup_io_spawned]
        intro hmem
        have := hs _ hmem
        omega

/-- C4: for every stage that names an input file which cannot be opened
read-only, the whole pipeline invocation fails: dispatch_external_command
returns the distinguished failure value -1, no process is ever spawned
for that stage, and an error has been reported.  setup_io (lines
242-248) fails before the fork of that stage, and the dispatcher (lines
357-359) returns -1 at the first setup_io failure. -/
theorem c4_input_open_failure_aborts (env : Env) (p : List Command) (g : Garbage)
    (k : Nat) (cmd : Command) (f : String)
    (hk : p.get? k = some cmd) (hf : cmd.input_filename = some f)
    (ho : env.openRead f = false) :
    (dispatch_external_command env p g).status = -1 ∧
    k ∉ (dispatch_external_command env p g).spawned ∧
    ∃ m, Event.report m ∈ (dispatch_external_command env p g).events := by
  have h := run_stages_input_fail env p 0 (st_init g) k cmd f hk hf ho
    (by intro j hj; simp [st_init] at hj)
  rw [Nat.zero_add] at h
  unfold dispatch_external_command
  rw [if_neg (by simp [h.1])]
  exact ⟨rfl, h.2.1, h.2.2⟩

/-- Witness for C4 at the scenario of the claim: a pipeline whose first
stage reads from the file missing, which cannot be opened. -/
theorem c4_witness :
    (dispatch_external_command env_noread [cmdAin, cmdB] g0).status = -1 ∧
    0 ∉ (dispatch_external_command env_noread [cmdAin, cmdB] g0).spawned ∧
    ∃ m, Event.report m ∈ (dispatch_external_command env_noread [cmdAin, cmdB] g0).events :=
  c4_input_open_failure_aborts env_noread [cmdAin, cmdB] g0 0 cmdAin "missing"
    (by decide) (by decide) (by decide)

/-- C6: a single external command with no redirection that is spawned
successfully and terminates normally yields the program exit code as
the dispatcher status, both in the pipeline dispatcher (reaping its
only child last) and in the single-command revision (lines 550-557). -/
theorem c6_single_command_status (env : Env) (cmd : Command) (g : Garbage) (c : Nat)
    (h1 : cmd.input_filename = none) (h2 : cmd.output_type = OutputType.stdout)
    (h3 : env.forkOk 0 = true) (h4 : env.execOk 0 = true)
    (h5 : env.outcomes 0 = Outcome.exited c) (h6 : c < 256)
    (h7 : env.reapOrder = [0]) :
    (dispatch_external_command env [cmd] g).status = (c : Int) ∧
    (dispatch_external_command_v3 env cmd).status = (c : Int) := by
  constructor
  · simp [dispatch_external_command, run_stages, setup_io, setup_io_input,
      setup_io_check_output, handle_parent_process, st_init, reap_all,
      actual_outcome, wait_rv, h1, h2, h3, h4, h5, h7, Nat.mod_eq_of_lt h6]
  · simp [dispatch_external_command_v3, v3_output, v3_fork, actual_outcome,
      wait_rv, h1, h2, h3, h4, h5, Nat.mod_eq_of_lt h6]

/-- Witness for C6: a single command exiting 7 gives status 7 in both
dispatchers. -/
theorem c6_witness :
    (dispatch_external_command (env_single (Outcome.exited 7)) [cmdB] g0).status = (7 : Int) ∧
    (dispatch_external_command_v3 (env_single (Outcome.exited 7)) cmdB).status = (7 : Int) :=
  c6_single_command_status (env_single (Outcome.exited 7)) cmdB g0 7
    (by decide) (by decide) (by decide) (by decide) (by decide) (by decide) (by decide)

/-- When v3_fork reaped a signal-terminated child its status is -1. -/
theorem v3_fork_signaled (env : Env) (cmd : Command) (evs : List Event) (sg : Nat)
    (h : (v3_fork env cmd evs).reapedOutcome = some (Outcome.signaled sg)) :
    (v3_fork env cmd evs).status = -1 := by
  unfold v3_fork at h ⊢
  by_cases hf : env.forkOk 0 = true
  · rw [if_pos hf] at h ⊢
    dsimp only at h ⊢
    injection h with h
    rw [h]
    rfl
  · rw [if_neg hf] at h
    simp at h

/-- When v3_output reaped a signal-terminated child its status is -1. -/
theorem v3_output_signaled (env : Env) (cmd : Command) (ifd : Int) (evs : List Event)
    (sg : Nat)
    (h : (v3_output env cmd ifd evs).reapedOutcome = some (Outcome.signaled sg)) :
    (v3_output env cmd ifd evs).status = -1 := by
  unfold v3_output at h ⊢
  by_cases h1 : cmd.output_type = OutputType.fileTruncate
  · rw [if_pos h1] at h ⊢
    dsimp only at h ⊢
    by_cases h2 : openW env false cmd.output_filename = true
    · rw [if_pos h2] at h ⊢
      exact v3_fork_signaled env cmd _ sg h
    · rw [if_neg h2] at h
      simp at h
  · rw [if_neg h1] at h ⊢
    by_cases h3 : cmd.output_type = OutputType.fileAppend
    · rw [if_pos h3] at h ⊢
      dsimp only at h ⊢
      by_cases h2 : openW env true cmd.output_filename = true
      · rw [if_pos h2] at h ⊢
        exact v3_fork_signaled env cmd _ sg h
      · rw [if_neg h2] at h
        simp at h
    · rw [if_neg h3] at h ⊢
      exact v3_fork_signaled env cmd _ sg h

/-- C7: when the last-reported process of an invocation terminated by a
signal rather than exiting, the returned status is the distinguished
failure value -1, not a raw signal encoding — for the pipeline
dispatcher (lines 155, 379) and for the single-command revision (lines
552-557). -/
theorem c7_abnormal_termination_gives_failure_value (env : Env) (p : List Command)
    (g : Garbage) (i sg : Nat) (env2 : Env) (cmd2 : Command) (sg2 : Nat)
    (h : (dispatch_external_command env p g).reaped.getLast? =
      some (i, Outcome.signaled sg))
    (h2 : (dispatch_external_command_v3 env2 cmd2).reapedOutcome =
      some (Outcome.signaled sg2)) :
    (dispatch_external_command env p g).status = -1 ∧
    (dispatch_external_command_v3 env2 cmd2).status = -1 := by
  constructor
  · unfold dispatch_external_command at h ⊢
    by_cases hok : (run_stages env 0 p (st_init g)).2 = true
    · rw [if_pos hok] at h ⊢
      dsimp only at h ⊢
      rw [h]
      rfl
    · rw [if_neg hok] at h
      simp at h
  · unfold dispatch_external_command_v3 at h2 ⊢
    cases hin : cmd2.input_filename with
    | none =>
      rw [hin] at h2
      exact v3_output_signaled env2 cmd2 0 [] sg2 h2
    | some f =>
      rw [hin] at h2
      dsimp only at h2 ⊢
      by_cases hr : env2.openRead f = true
      · rw [if_pos hr] at h2 ⊢
        exact v3_output_signaled env2 cmd2 3 _ sg2 h2
      · rw [if_neg hr] at h2
        simp at h2

/-- Witness for C7: a single command killed by signal 9 yields status
-1 in both dispatchers. -/
theorem c7_witness :
    (dispatch_external_command (env_single (Outcome.signaled 9)) [cmdB] g0).status = -1 ∧
    (dispatch_external_command_v3 (env_single (Outcome.signaled 9)) cmdB).status = -1 :=
  c7_abnormal_termination_gives_failure_value (env_single (Outcome.signaled 9)) [cmdB]
    g0 0 9 (env_single (Outcome.signaled 9)) cmdB 9 (by decide) (by decide)

/-- C8 (amended): the inline child paths report an exec failure with
ENOENT by the distinct message and any other errno by the underlying OS
error; execute_child_process reports every exec failure, ENOENT
included, with the underlying OS error; in all cases the child exits
with the non-zero code 255 and never returns. -/
theorem c8_amended_exec_failure_reporting (e : Nat) (env : Env) (k : Nat)
    (cmd : Command) (i o c0 c1 : Int)
    (he2 : e ≠ 2) (he : env.execOk k = false) :
    inline_child_exec_failure_report 2 = ("error: cannot find command", false) ∧
    inline_child_exec_failure_report e = ("Failed to execute the external command", true) ∧
    (execute_child_process env k cmd i o c0 c1).2 = ChildRes.exited 255 ∧
    Event.childReport k "execvp failed" true ∈ (execute_child_process env k cmd i o c0 c1).1 ∧
    (255 : Nat) ≠ 0 := by
  refine ⟨by simp [inline_child_exec_failure_report],
          by simp [inline_child_exec_failure_report, he2],
          by simp [execute_child_process, he],
          ?_, by decide⟩
  simp [execute_child_process, he]

/-- Witness for C8 (amended), at errno 5 (EIO) and the not-found child
of env_noent. -/
theorem c8_amended_witness :
    inline_child_exec_failure_report 2 = ("error: cannot find command", false) ∧
    inline_child_exec_failure_report 5 = ("Failed to execute the external command", true) ∧
    (execute_child_process env_noent 0 cmdB 0 1 (-1) (-1)).2 = ChildRes.exited 255 ∧
    Event.childReport 0 "execvp failed" true ∈
      (execute_child_process env_noent 0 cmdB 0 1 (-1) (-1)).1 ∧
    (255 : Nat) ≠ 0 :=
  c8_amended_exec_failure_reporting 5 env_noent 0 cmdB 0 1 (-1) (-1)
    (by decide) (by decide)

/-- C9: a blank input line (a successful parse with a NULL result)
returns the previous status unchanged, leaves the exit flag unchanged
and dispatches nothing (dispatcher.c lines 423-425). -/
theorem c9_blank_line_returns_previous_status (se : ShellEnv) (input : String)
    (last_rv : Int) (flag : Bool) (h : se.parse input = ParseResult.ok []) :
    shell_command_dispatcher se input last_rv flag =
      { status := last_rv, shell_should_exit := flag, dispatched := false,
        usedBuiltin := false } := by
  unfold shell_command_dispatcher
  rw [h]

/-- Shell environment whose parser always yields the blank result. -/
def se_blank : ShellEnv :=
  { parse := fun _ => ParseResult.ok [], builtins := [], env := env_ok, g := g0 }

/-- Witness for C9 at a concrete blank line with previous status 7. -/
theorem c9_witness :
    shell_command_dispatcher se_blank "" 7 false =
      { status := 7, shell_should_exit := false, dispatched := false,
        usedBuiltin := false } :=
  c9_blank_line_returns_previous_status se_blank "" 7 false rfl

/-- C10: the exit-request flag is written only through a builtin
handler call: on a parse error, on a blank line, and on any external
(non-builtin) command the flag keeps its value (dispatcher.c lines
393-408, 410-430). -/
theorem c10_exit_flag_unchanged_off_builtin_path (se : ShellEnv) (input : String)
    (last_rv : Int) (flag : Bool)
    (h : ∀ c rest, se.parse input = ParseResult.ok (c :: rest) →
         lookup_builtin se.builtins (argv0 c) = none) :
    (shell_command_dispatcher se input last_rv flag).shell_should_exit = flag := by
  unfold shell_command_dispatcher
  cases hp : se.parse input with
  | err e => rfl
  | ok p =>
    cases p with
    | nil => rfl
    | cons c rest =>
      dsimp only
      unfold dispatch_parsed_command
      rw [h c rest hp]

/-- Shell environment whose parser always yields the external command b
and whose builtin registry is empty. -/
def se_external : ShellEnv :=
  { parse := fun _ => ParseResult.ok [cmdB], builtins := [], env := env_ok, g := g0 }

/-- Witness for C10 on an external command with an empty builtin
registry: the flag stays false. -/
theorem c10_witness :
    (shell_command_dispatcher se_external "b" 0 false).shell_should_exit = false :=
  c10_exit_flag_unchanged_off_builtin_path se_external "b" 0 false
    (fun _ _ _ => rfl)

end ShellSpec
